import Mathlib

/-!
Verification of the pulumi-python infrastructure declarations.

Each builder class of the repository is shallowly embedded as a pure Lean
function from a spec record (the `args` dictionary of the Python
constructor, with `Option`/`List` fields standing for possibly-absent
dictionary keys) to the record of resources the constructor declares.
Calls into the external cloud provider (availability-zone queries, AMI
lookups) are modelled as extra inputs; a Python `raise` is modelled with
`Except String`.
-/

namespace Py

/-- Python truthiness of an optional string: `None` and `""` are falsy. -/
def truthyStr : Option String → Bool
  | none => false
  | some s => s ≠ ""

/-- Python truthiness of an optional int: `None` and `0` are falsy. -/
def truthyInt : Option Int → Bool
  | none => false
  | some n => n ≠ 0

/-- Helper for `str.split(".")`: accumulate characters until a dot. -/
def splitDotAux : List Char → List Char → List String
  | [], acc => [String.mk acc.reverse]
  | c :: cs, acc =>
    if c = '.' then String.mk acc.reverse :: splitDotAux cs []
    else splitDotAux cs (c :: acc)

/-- Python `s.split(".")`. -/
def pySplitDot (s : String) : List String := splitDotAux s.data []

/-- Python `s.lower()` (ASCII, which covers every string the code compares). -/
def pyLower (s : String) : String := String.mk (s.data.map Char.toLower)

/-- UTF-8 encoding of one character, as Python `str.encode("utf-8")` yields. -/
def utf8Bytes (c : Char) : List Nat :=
  let n := c.toNat
  if n < 0x80 then [n]
  else if n < 0x800 then [0xC0 + n / 64, 0x80 + n % 64]
  else if n < 0x10000 then [0xE0 + n / 4096, 0x80 + n / 64 % 64, 0x80 + n % 64]
  else [0xF0 + n / 262144, 0x80 + n / 4096 % 64, 0x80 + n / 64 % 64, 0x80 + n % 64]

/-- Python `s.encode("utf-8")` as a byte list. -/
def pyUtf8 (s : String) : List Nat := s.data.flatMap utf8Bytes

/-- The standard base64 alphabet. -/
def b64Alphabet : List Char :=
  "ABCDEFGHIJKLMNOPQRSTUVWXYZabcdefghijklmnopqrstuvwxyz0123456789+/".data

/-- Digit of the base64 alphabet. -/
def b64Char (n : Nat) : Char := b64Alphabet.getD n 'A'

/-- Base64 encoding of a byte list with padding, as `base64.b64encode`. -/
def b64EncodeBytes : List Nat → List Char
  | [] => []
  | [a] => [b64Char (a / 4), b64Char (a % 4 * 16), '=', '=']
  | [a, b] => [b64Char (a / 4), b64Char (a % 4 * 16 + b / 16), b64Char (b % 16 * 4), '=']
  | a :: b :: c :: rest =>
    b64Char (a / 4) :: b64Char (a % 4 * 16 + b / 16) :: b64Char (b % 16 * 4 + c / 64) ::
      b64Char (c % 64) :: b64EncodeBytes rest

/-- Python `base64.b64encode(s.encode("utf-8")).decode("utf-8")`. -/
def pyB64Encode (s : String) : String := String.mk (b64EncodeBytes (pyUtf8 s))

end Py

namespace Vpc

/-- The `args` dictionary accepted by `VpcNetwork.__init__`
(src/deploy-asg/infra/vpc/network.py).  Keys the claims do not touch
(dns flags, ipv6, tags) only feed pass-through provider fields and are
omitted.  Absent optional lists are indistinguishable from empty ones in
the Python code (`if not xs`), so they are plain lists here. -/
structure NetworkSpec where
  cidr_block : Option String := none
  availability_zones : List String := []
  public_subnet_cidrs : List String := []
  private_subnet_cidrs : List String := []
  enable_nat_gateway : Option Bool := none
deriving DecidableEq

/-- One `aws.ec2.Subnet` declaration. -/
structure Subnet where
  availability_zone : String
  cidr_block : String
  map_public_ip_on_launch : Bool
deriving DecidableEq

/-- One `aws.ec2.NatGateway` declaration: it sits in the public subnet of
the given index and uses the elastic IP of the same index. -/
structure NatGateway where
  subnetIdx : Nat
deriving DecidableEq

/-- One `aws.ec2.Route` of a private route table: a default route whose
target is a NAT gateway. -/
structure PrivateRoute where
  routeTableIdx : Nat
  destination_cidr_block : String
  natGatewayIdx : Nat
deriving DecidableEq

/-- The resources `VpcNetwork.__init__` declares (route tables, elastic
IPs and associations carry no claim-relevant data beyond their index). -/
structure VpcNetworkResult where
  vpcCidr : String
  publicSubnets : List Subnet
  privateSubnets : List Subnet
  natEips : List Nat
  natGateways : List NatGateway
  publicRtAssociations : List Nat
  privateRouteTables : List Nat
  privateRoutes : List PrivateRoute
  privateRtAssociations : List (Nat × Nat)
deriving DecidableEq

/-- `availability_zones` resolution: an unset (falsy) list falls back to
the first two zones of the external `aws.get_availability_zones` query,
whose result is the extra input `awsZones`. -/
def resolvedAzs (spec : NetworkSpec) (awsZones : List String) : List String :=
  if spec.availability_zones = [] then awsZones.take 2 else spec.availability_zones

/-- `base = ".".join(cidr_block.split(".")[0:2])`. -/
def cidrBase (cidr_block : String) : String :=
  String.intercalate "." ((Py.pySplitDot cidr_block).take 2)

/-- Derived public subnet CIDRs: `base.{i}.0/24` for each zone index. -/
def derivedPublicCidrs (cidr_block : String) (azCount : Nat) : List String :=
  (List.range azCount).map fun i => cidrBase cidr_block ++ "." ++ toString i ++ ".0/24"

/-- Derived private subnet CIDRs: `base.{i+10}.0/24` for each zone index. -/
def derivedPrivateCidrs (cidr_block : String) (azCount : Nat) : List String :=
  (List.range azCount).map fun i => cidrBase cidr_block ++ "." ++ toString (i + 10) ++ ".0/24"

/-- Public subnet CIDR list after the `if not public_subnet_cidrs` default. -/
def resolvedPublicCidrs (spec : NetworkSpec) (azs : List String) : List String :=
  if spec.public_subnet_cidrs = [] then
    derivedPublicCidrs (spec.cidr_block.getD "10.0.0.0/16") azs.length
  else spec.public_subnet_cidrs

/-- Private subnet CIDR list after the `if not private_subnet_cidrs` default. -/
def resolvedPrivateCidrs (spec : NetworkSpec) (azs : List String) : List String :=
  if spec.private_subnet_cidrs = [] then
    derivedPrivateCidrs (spec.cidr_block.getD "10.0.0.0/16") azs.length
  else spec.private_subnet_cidrs

/-- `VpcNetwork.__init__`: the full resource derivation.  Subnets pair
zones and CIDRs with `zip` exactly as the Python `zip` does; NAT
gateways and elastic IPs are declared per public subnet when
`enable_nat_gateway` (default `True`) holds; one private route table per
private subnet, with a default route to the NAT gateway of the same
index guarded by `enable_nat_gateway and i < len(nat_gateways)`. -/
def buildNetwork (spec : NetworkSpec) (awsZones : List String) : VpcNetworkResult :=
  let azs := resolvedAzs spec awsZones
  let cidr := spec.cidr_block.getD "10.0.0.0/16"
  let pubCidrs := resolvedPublicCidrs spec azs
  let privCidrs := resolvedPrivateCidrs spec azs
  let enableNat := spec.enable_nat_gateway.getD true
  let publicSubnets := (azs.zip pubCidrs).map fun p => Subnet.mk p.1 p.2 true
  let privateSubnets := (azs.zip privCidrs).map fun p => Subnet.mk p.1 p.2 false
  let natEips := if enableNat then List.range publicSubnets.length else []
  let natGateways :=
    if enableNat then (List.range publicSubnets.length).map NatGateway.mk else []
  let privateRoutes := (List.range privateSubnets.length).filterMap fun i =>
    if enableNat ∧ i < natGateways.length then some (PrivateRoute.mk i "0.0.0.0/0" i)
    else none
  { vpcCidr := cidr
    publicSubnets := publicSubnets
    privateSubnets := privateSubnets
    natEips := natEips
    natGateways := natGateways
    publicRtAssociations := List.range publicSubnets.length
    privateRouteTables := List.range privateSubnets.length
    privateRoutes := privateRoutes
    privateRtAssociations := (List.range privateSubnets.length).map fun i => (i, i) }

end Vpc

namespace SG

/-- One entry of the `ingress_rules` / `egress_rules` lists handed to
`SecurityGroup.__init__` (src/infra/security_groups/security_groups.py):
a Python rule dictionary, each key possibly absent. -/
structure RuleRecord where
  protocol : Option String := none
  from_port : Option Int := none
  to_port : Option Int := none
  cidr_blocks : Option (List String) := none
  ipv6_cidr_blocks : Option (List String) := none
  source_security_group_id : Option String := none
  description : Option String := none
deriving DecidableEq

/-- The `aws.ec2.SecurityGroupIngressArgs` record `_build_rule` returns
(the same shape serves egress). `security_groups` is `none` when the
keyword was not passed at all. -/
structure SecurityGroupIngressArgs where
  protocol : String
  from_port : Int
  to_port : Int
  cidr_blocks : List String
  ipv6_cidr_blocks : List String
  description : String
  security_groups : Option (List String) := none
deriving DecidableEq

/-- `SecurityGroup._build_rule`: defaults every missing key, and adds
`security_groups=[source_security_group_id]` only when that key is
truthy; the `cidr_blocks` key is always copied through. -/
def build_rule (rule : RuleRecord) : SecurityGroupIngressArgs :=
  { protocol := rule.protocol.getD "tcp"
    from_port := rule.from_port.getD 0
    to_port := rule.to_port.getD 0
    cidr_blocks := rule.cidr_blocks.getD []
    ipv6_cidr_blocks := rule.ipv6_cidr_blocks.getD []
    description := rule.description.getD ""
    security_groups :=
      match rule.source_security_group_id with
      | some s => if s = "" then none else some [s]
      | none => none }

/-- The `args` dictionary of `SecurityGroup.__init__` (claim-relevant
keys). -/
structure SecurityGroupSpec where
  vpc_id : Option String := none
  ingress_rules : List RuleRecord := []
  egress_rules : List RuleRecord := []
deriving DecidableEq

/-- The default egress rule installed when `egress_rules` is empty. -/
def defaultEgressRule : RuleRecord :=
  { protocol := some "-1"
    from_port := some 0
    to_port := some 0
    cidr_blocks := some ["0.0.0.0/0"]
    description := some "Allow all outbound traffic" }

/-- The rule lists of the declared `aws.ec2.SecurityGroup`. -/
structure SecurityGroupResult where
  ingress : List SecurityGroupIngressArgs
  egress : List SecurityGroupIngressArgs
deriving DecidableEq

/-- `SecurityGroup.__init__`: requires a truthy `vpc_id`, defaults an
empty egress list to the single allow-all rule, then builds every rule
with `_build_rule`. -/
def buildSecurityGroup (spec : SecurityGroupSpec) : Except String SecurityGroupResult :=
  if Py.truthyStr spec.vpc_id = false then .error "vpc_id is required"
  else
    let egress := if spec.egress_rules = [] then [defaultEgressRule] else spec.egress_rules
    .ok { ingress := spec.ingress_rules.map build_rule
          egress := egress.map build_rule }

/-- The `args` dictionary of `DatabaseSecurityGroup.__init__`
(claim-relevant keys; `source_cidr_blocks` defaults to `[]`). -/
structure DatabaseSpec where
  vpc_id : Option String := none
  database_type : Option String := none
  source_security_group_id : Option String := none
  source_cidr_blocks : List String := []
deriving DecidableEq

/-- The `database_ports` lookup table of `DatabaseSecurityGroup.__init__`. -/
def database_ports : List (String × Int) :=
  [("mysql", 3306), ("postgres", 5432), ("postgresql", 5432), ("redis", 6379),
   ("mongodb", 27017), ("mssql", 1433), ("oracle", 1521),
   ("aurora-mysql", 3306), ("aurora-postgres", 5432)]

/-- `database_ports.get(database_type.lower(), 3306)`. -/
def databasePort (database_type : String) : Int :=
  (database_ports.lookup (Py.pyLower database_type)).getD 3306

/-- `DatabaseSecurityGroup.__init__`: looks up the port, builds the one
ingress rule (peer group if truthy, else CIDR list if nonempty, else a
fatal error), then delegates to `SecurityGroup.__init__`. -/
def buildDatabaseSecurityGroup (spec : DatabaseSpec) : Except String SecurityGroupResult :=
  let database_type := spec.database_type.getD "mysql"
  let port := databasePort database_type
  let base : RuleRecord :=
    { protocol := some "tcp"
      from_port := some port
      to_port := some port
      description := some ("Allow " ++ database_type ++ " access") }
  if Py.truthyStr spec.source_security_group_id then
    buildSecurityGroup
      { vpc_id := spec.vpc_id
        ingress_rules := [{ base with source_security_group_id := spec.source_security_group_id }] }
  else if spec.source_cidr_blocks ≠ [] then
    buildSecurityGroup
      { vpc_id := spec.vpc_id
        ingress_rules := [{ base with cidr_blocks := some spec.source_cidr_blocks }] }
  else .error "Either source_security_group_id or source_cidr_blocks must be provided"

end SG

namespace Alb

/-- The `redirect` sub-dictionary of a listener default action
(src/deploy-asg/infra/load_balancer/alb.py). -/
structure RedirectConfig where
  protocol : Option String := none
  port : Option String := none
  status_code : Option String := none
  host : Option String := none
  path : Option String := none
  query : Option String := none
deriving DecidableEq

/-- The `fixed_response` sub-dictionary of a listener default action. -/
structure FixedResponseConfig where
  content_type : Option String := none
  message_body : Option String := none
  status_code : Option String := none
deriving DecidableEq

/-- The `default_action` dictionary of a listener configuration. -/
structure ActionConfig where
  type : Option String := none
  target_group_arn : Option String := none
  redirect : Option RedirectConfig := none
  fixed_response : Option FixedResponseConfig := none
deriving DecidableEq

/-- Python truthiness of the `default_action` dictionary: an action with
no keys is the empty dictionary, which is falsy. -/
def ActionConfig.isEmptyDict (a : ActionConfig) : Bool :=
  a.type.isNone && a.target_group_arn.isNone && a.redirect.isNone && a.fixed_response.isNone

/-- One entry of the `listeners` list handed to
`ApplicationLoadBalancer.__init__`. -/
structure ListenerConfig where
  port : Option Int := none
  protocol : Option String := none
  certificate_arn : Option String := none
  ssl_policy : Option String := none
  default_action : Option ActionConfig := none
deriving DecidableEq

/-- The built `aws.lb.ListenerDefaultActionArgs`: the discriminated arm
actually populated by the loop body.  An unrecognized `type` string is
passed through with no sub-configuration (`other`). -/
inductive ListenerAction where
  | forward (target_group_arn : String)
  | redirect (protocol port status_code host path query : String)
  | fixedResponse (content_type message_body status_code : String)
  | other (type : String)
deriving DecidableEq

/-- One declared `aws.lb.Listener` resource. -/
structure Listener where
  port : Int
  protocol : String
  default_action : ListenerAction
  certificate_arn : Option String := none
  ssl_policy : Option String := none
deriving DecidableEq

/-- The default-action construction of one loop iteration: `forward`
demands a truthy `target_group_arn`, `redirect` and `fixed-response`
fill defaults from their sub-dictionaries. -/
def buildAction (default_action : ActionConfig) : Except String ListenerAction :=
  let action_type := default_action.type.getD "forward"
  if action_type = "forward" then
    if Py.truthyStr default_action.target_group_arn then
      .ok (.forward (default_action.target_group_arn.getD ""))
    else .error "target_group_arn required for forward action"
  else if action_type = "redirect" then
    let rc := default_action.redirect.getD {}
    .ok (.redirect (rc.protocol.getD "HTTPS") (rc.port.getD "443")
      (rc.status_code.getD "HTTP_301") (rc.host.getD "#{host}")
      (rc.path.getD "/#{path}") (rc.query.getD "#{query}"))
  else if action_type = "fixed-response" then
    let fr := default_action.fixed_response.getD {}
    .ok (.fixedResponse (fr.content_type.getD "text/plain")
      (fr.message_body.getD "OK") (fr.status_code.getD "200"))
  else .ok (.other action_type)

/-- One iteration of the listener loop of
`ApplicationLoadBalancer.__init__`: the validations run in source
order (port, default_action, action arm, HTTPS certificate) and each
failure is a raise that precedes creating this listener. -/
def buildListener (lc : ListenerConfig) : Except String Listener :=
  let listener_protocol := lc.protocol.getD "HTTP"
  let ssl_policy := lc.ssl_policy.getD "ELBSecurityPolicy-2016-08"
  let default_action := lc.default_action.getD {}
  if Py.truthyInt lc.port = false then .error "port must be provided"
  else if default_action.isEmptyDict then .error "default_action must be provided"
  else
    match buildAction default_action with
    | .error e => .error e
    | .ok action =>
      if listener_protocol = "HTTPS" ∧ Py.truthyStr lc.certificate_arn = false then
        .error "certificate_arn required for HTTPS protocol"
      else
        .ok { port := lc.port.getD 0
              protocol := listener_protocol
              default_action := action
              certificate_arn :=
                if listener_protocol = "HTTPS" then lc.certificate_arn else none
              ssl_policy :=
                if listener_protocol = "HTTPS" then some ssl_policy else none }

/-- The listener loop: listeners are created one per iteration, so a
raise at iteration `i` leaves the listeners of iterations `0..i-1`
already created.  The first component collects the created listeners,
the second the raised error, if any. -/
def buildListeners : List ListenerConfig → List Listener × Option String
  | [] => ([], none)
  | lc :: rest =>
    match buildListener lc with
    | .error e => ([], some e)
    | .ok l =>
      let r := buildListeners rest
      (l :: r.1, r.2)

/-- The `args` dictionary of `ApplicationLoadBalancer.__init__`
(claim-relevant keys). -/
structure AlbSpec where
  subnet_ids : List String := []
  security_group_ids : List String := []
  listeners : List ListenerConfig := []
deriving DecidableEq

/-- `ApplicationLoadBalancer.__init__`: the three up-front validations
raise before the load balancer exists; afterwards the listener loop
runs with the load balancer already created.  `.ok (created, err)`
means construction reached the loop, which created `created` and then
raised `err` (if some). -/
def buildApplicationLoadBalancer (spec : AlbSpec) :
    Except String (List Listener × Option String) :=
  if spec.subnet_ids.length < 2 then
    .error "At least 2 subnet_ids must be provided in different AZs"
  else if spec.security_group_ids = [] then
    .error "security_group_ids must be provided"
  else if spec.listeners = [] then
    .error "At least one listener configuration must be provided"
  else .ok (buildListeners spec.listeners)

end Alb

namespace Ec2

/-- The `args` dictionary of `Ec2Instance.__init__`
(src/deploy-asg/infra/ec2/ec2.py), claim-relevant keys. -/
structure Ec2Spec where
  instance_type : Option String := none
  ami : Option String := none
  key_name : Option String := none
  subnet_id : Option String := none
  security_group_ids : List String := []
  vpc_id : Option String := none
  user_data : Option String := none
deriving DecidableEq

/-- The rule lists of the fallback security group the builder declares
itself. -/
structure SecurityGroupData where
  ingress : List SG.SecurityGroupIngressArgs
  egress : List SG.SecurityGroupIngressArgs
deriving DecidableEq

/-- What `vpc_security_group_ids` of the instance refers to: either the
caller-supplied ids, or exactly the one self-created fallback group. -/
inductive AttachedSecurityGroups where
  | given (ids : List String)
  | createdFallback (sg : SecurityGroupData)
deriving DecidableEq

/-- The ingress rule of the fallback security group: SSH from anywhere. -/
def fallbackSshIngress : SG.SecurityGroupIngressArgs :=
  { protocol := "tcp", from_port := 22, to_port := 22,
    cidr_blocks := ["0.0.0.0/0"], ipv6_cidr_blocks := [],
    description := "Allow SSH" }

/-- The egress rule of the fallback security group: allow everything. -/
def fallbackAllEgress : SG.SecurityGroupIngressArgs :=
  { protocol := "-1", from_port := 0, to_port := 0,
    cidr_blocks := ["0.0.0.0/0"], ipv6_cidr_blocks := [],
    description := "Allow all outbound" }

/-- The fallback security group declared when `vpc_id` is given but
`security_group_ids` is not. -/
def fallbackSecurityGroupData : SecurityGroupData :=
  { ingress := [fallbackSshIngress], egress := [fallbackAllEgress] }

/-- The resources `Ec2Instance.__init__` declares.  `instance_user_data`
is the `user_data` value handed to `aws.ec2.Instance`, which the source
passes through verbatim (no encoding). -/
structure Ec2Result where
  fallbackSecurityGroup : Option SecurityGroupData
  attached : AttachedSecurityGroups
  instance_user_data : Option String
deriving DecidableEq

/-- `Ec2Instance.__init__`: raises when both `security_group_ids` and
`vpc_id` are falsy; self-creates the SSH-only fallback group when only
`vpc_id` is given; hands `user_data` to the instance unchanged.  The
AMI lookup is an external query and touches no claim. -/
def buildEc2Instance (spec : Ec2Spec) : Except String Ec2Result :=
  if spec.security_group_ids = [] ∧ Py.truthyStr spec.vpc_id = false then
    .error "Either security_group_ids or vpc_id must be provided"
  else if spec.security_group_ids = [] then
    .ok { fallbackSecurityGroup := some fallbackSecurityGroupData
          attached := .createdFallback fallbackSecurityGroupData
          instance_user_data := spec.user_data }
  else
    .ok { fallbackSecurityGroup := none
          attached := .given spec.security_group_ids
          instance_user_data := spec.user_data }

end Ec2

namespace Asg

/-- The `args` dictionary of `LaunchTemplate.__init__`
(src/deploy-asg/infra/asg/launch_template.py), claim-relevant keys. -/
structure LaunchTemplateSpec where
  ami : Option String := none
  key_name : Option String := none
  security_group_ids : List String := []
  user_data : Option String := none
deriving DecidableEq

/-- The claim-relevant part of the declared `aws.ec2.LaunchTemplate`:
the `user_data` argument, which the source sets only when the supplied
script is truthy, to its base64 encoding. -/
structure LaunchTemplateResult where
  user_data : Option String
deriving DecidableEq

/-- `LaunchTemplate.__init__`: requires `security_group_ids`; when a
truthy `user_data` is supplied, transmits
`base64.b64encode(user_data.encode("utf-8")).decode("utf-8")`. -/
def buildLaunchTemplate (spec : LaunchTemplateSpec) : Except String LaunchTemplateResult :=
  if spec.security_group_ids = [] then .error "security_group_ids must be provided"
  else
    .ok { user_data :=
            match spec.user_data with
            | some ud => if ud = "" then none else some (Py.pyB64Encode ud)
            | none => none }

end Asg

namespace Vpc

lemma length_derivedPublicCidrs (c : String) (n : Nat) :
    (derivedPublicCidrs c n).length = n := by
  simp [derivedPublicCidrs]

lemma length_derivedPrivateCidrs (c : String) (n : Nat) :
    (derivedPrivateCidrs c n).length = n := by
  simp [derivedPrivateCidrs]

lemma length_resolvedPublicCidrs (spec : NetworkSpec) (azs : List String)
    (h : spec.public_subnet_cidrs = [] ∨ spec.public_subnet_cidrs.length = azs.length) :
    (resolvedPublicCidrs spec azs).length = azs.length := by
  unfold resolvedPublicCidrs
  rcases h with h | h
  · simp [h, length_derivedPublicCidrs]
  · by_cases he : spec.public_subnet_cidrs = [] <;>
      simp [he, length_derivedPublicCidrs, h]

lemma length_resolvedPrivateCidrs (spec : NetworkSpec) (azs : List String)
    (h : spec.private_subnet_cidrs = [] ∨ spec.private_subnet_cidrs.length = azs.length) :
    (resolvedPrivateCidrs spec azs).length = azs.length := by
  unfold resolvedPrivateCidrs
  rcases h with h | h
  · simp [h, length_derivedPrivateCidrs]
  · by_cases he : spec.private_subnet_cidrs = [] <;>
      simp [he, length_derivedPrivateCidrs, h]

lemma publicSubnets_length (spec : NetworkSpec) (q : List String) :
    (buildNetwork spec q).publicSubnets.length =
      min (resolvedAzs spec q).length
        (resolvedPublicCidrs spec (resolvedAzs spec q)).length := by
  simp [buildNetwork]

lemma privateSubnets_length (spec : NetworkSpec) (q : List String) :
    (buildNetwork spec q).privateSubnets.length =
      min (resolvedAzs spec q).length
        (resolvedPrivateCidrs spec (resolvedAzs spec q)).length := by
  simp [buildNetwork]

lemma natGateways_eq (spec : NetworkSpec) (q : List String) :
    (buildNetwork spec q).natGateways =
      if spec.enable_nat_gateway.getD true then
        (List.range (buildNetwork spec q).publicSubnets.length).map NatGateway.mk
      else [] := rfl

lemma natEips_eq (spec : NetworkSpec) (q : List String) :
    (buildNetwork spec q).natEips =
      if spec.enable_nat_gateway.getD true then
        List.range (buildNetwork spec q).publicSubnets.length
      else [] := rfl

lemma privateRouteTables_eq (spec : NetworkSpec) (q : List String) :
    (buildNetwork spec q).privateRouteTables =
      List.range (buildNetwork spec q).privateSubnets.length := rfl

lemma privateRoutes_eq (spec : NetworkSpec) (q : List String) :
    (buildNetwork spec q).privateRoutes =
      (List.range (buildNetwork spec q).privateSubnets.length).filterMap fun i =>
        if spec.enable_nat_gateway.getD true ∧ i < (buildNetwork spec q).natGateways.length
        then some (PrivateRoute.mk i "0.0.0.0/0" i) else none := rfl

end Vpc

/-- C1: for every NetworkSpec whose (resolved) subnet CIDR lists match the
availability-zone list in length, `VpcNetwork.__init__` declares one NAT
gateway and one elastic IP per public subnet when `enable_nat_gateway`
resolves to true and none of either when it resolves to false; and for
each index `i`, the private route table at index `i` carries exactly one
default route `0.0.0.0/0` targeting the NAT gateway at the same index
`i` when NAT is enabled, and no private route table carries a default
route when it is disabled. -/
theorem claim1_nat_per_zone (spec : Vpc.NetworkSpec) (q : List String)
    (hpub : (Vpc.resolvedPublicCidrs spec (Vpc.resolvedAzs spec q)).length =
      (Vpc.resolvedAzs spec q).length)
    (hpriv : (Vpc.resolvedPrivateCidrs spec (Vpc.resolvedAzs spec q)).length =
      (Vpc.resolvedAzs spec q).length) :
    (spec.enable_nat_gateway.getD true = true →
      (Vpc.buildNetwork spec q).natGateways.length =
        (Vpc.buildNetwork spec q).publicSubnets.length ∧
      (Vpc.buildNetwork spec q).natEips.length =
        (Vpc.buildNetwork spec q).publicSubnets.length ∧
      ∀ i < (Vpc.buildNetwork spec q).privateRouteTables.length,
        Vpc.PrivateRoute.mk i "0.0.0.0/0" i ∈ (Vpc.buildNetwork spec q).privateRoutes ∧
        ∀ rt ∈ (Vpc.buildNetwork spec q).privateRoutes, rt.routeTableIdx = i →
          rt = Vpc.PrivateRoute.mk i "0.0.0.0/0" i) ∧
    (spec.enable_nat_gateway.getD true = false →
      (Vpc.buildNetwork spec q).natGateways = [] ∧
      (Vpc.buildNetwork spec q).natEips = [] ∧
      (Vpc.buildNetwork spec q).privateRoutes = []) := by
  have hpubLen : (Vpc.buildNetwork spec q).publicSubnets.length =
      (Vpc.resolvedAzs spec q).length := by
    rw [Vpc.publicSubnets_length, hpub, Nat.min_self]
  have hprivLen : (Vpc.buildNetwork spec q).privateSubnets.length =
      (Vpc.resolvedAzs spec q).length := by
    rw [Vpc.privateSubnets_length, hpriv, Nat.min_self]
  constructor
  · intro hnat
    refine ⟨?_, ?_, ?_⟩
    · rw [Vpc.natGateways_eq, hnat]
      simp
    · rw [Vpc.natEips_eq, hnat]
      simp
    · intro i hi
      rw [Vpc.privateRouteTables_eq, List.length_range] at hi
      have hiAz : i < (Vpc.resolvedAzs spec q).length := hprivLen ▸ hi
      have hiNat : i < (Vpc.buildNetwork spec q).natGateways.length := by
        rw [Vpc.natGateways_eq, hnat]
        simp [hpubLen, hiAz]
      constructor
      · rw [Vpc.privateRoutes_eq]
        refine List.mem_filterMap.mpr ⟨i, ?_, ?_⟩
        · exact List.mem_range.mpr hi
        · simp [hnat, hiNat]
      · intro rt hrt hidx
        rw [Vpc.privateRoutes_eq] at hrt
        rcases List.mem_filterMap.mp hrt with ⟨j, _, hj⟩
        by_cases hcond : spec.enable_nat_gateway.getD true = true ∧
            j < (Vpc.buildNetwork spec q).natGateways.length
        · simp [hcond] at hj
          subst hj
          simp at hidx
          subst hidx
          rfl
        · simp [hcond] at hj
  · intro hnat
    refine ⟨?_, ?_, ?_⟩
    · rw [Vpc.natGateways_eq, hnat]
      simp
    · rw [Vpc.natEips_eq, hnat]
      simp
    · rw [Vpc.privateRoutes_eq]
      apply List.filterMap_eq_nil_iff.mpr
      intro i _
      simp [hnat]

/-- C1 witness: a concrete spec with two zones and matching CIDR lists,
NAT enabled, yields two NAT gateways and two elastic IPs with the route
of table 0 targeting NAT gateway 0; the same spec with NAT disabled
yields none of either. -/
theorem claim1_nat_per_zone_witness :
    ((Vpc.buildNetwork
        { cidr_block := some "10.0.0.0/16"
          availability_zones := ["us-east-1a", "us-east-1b"]
          public_subnet_cidrs := ["10.0.0.0/24", "10.0.1.0/24"]
          private_subnet_cidrs := ["10.0.10.0/24", "10.0.11.0/24"]
          enable_nat_gateway := some true } []).natGateways.length =
      (Vpc.buildNetwork
        { cidr_block := some "10.0.0.0/16"
          availability_zones := ["us-east-1a", "us-east-1b"]
          public_subnet_cidrs := ["10.0.0.0/24", "10.0.1.0/24"]
          private_subnet_cidrs := ["10.0.10.0/24", "10.0.11.0/24"]
          enable_nat_gateway := some true } []).publicSubnets.length) ∧
    Vpc.PrivateRoute.mk 0 "0.0.0.0/0" 0 ∈
      (Vpc.buildNetwork
        { cidr_block := some "10.0.0.0/16"
          availability_zones := ["us-east-1a", "us-east-1b"]
          public_subnet_cidrs := ["10.0.0.0/24", "10.0.1.0/24"]
          private_subnet_cidrs := ["10.0.10.0/24", "10.0.11.0/24"]
          enable_nat_gateway := some true } []).privateRoutes ∧
    (Vpc.buildNetwork
        { cidr_block := some "10.0.0.0/16"
          availability_zones := ["us-east-1a", "us-east-1b"]
          public_subnet_cidrs := ["10.0.0.0/24", "10.0.1.0/24"]
          private_subnet_cidrs := ["10.0.10.0/24", "10.0.11.0/24"]
          enable_nat_gateway := some false } []).natGateways = [] := by
  have h1 := claim1_nat_per_zone
    { cidr_block := some "10.0.0.0/16"
      availability_zones := ["us-east-1a", "us-east-1b"]
      public_subnet_cidrs := ["10.0.0.0/24", "10.0.1.0/24"]
      private_subnet_cidrs := ["10.0.10.0/24", "10.0.11.0/24"]
      enable_nat_gateway := some true } [] (by decide) (by decide)
  have h2 := claim1_nat_per_zone
    { cidr_block := some "10.0.0.0/16"
      availability_zones := ["us-east-1a", "us-east-1b"]
      public_subnet_cidrs := ["10.0.0.0/24", "10.0.1.0/24"]
      private_subnet_cidrs := ["10.0.10.0/24", "10.0.11.0/24"]
      enable_nat_gateway := some false } [] (by decide) (by decide)
  refine ⟨(h1.1 rfl).1, ((h1.1 rfl).2.2 0 (by decide)).1, (h2.2 rfl).1⟩

/-- C4: for every valid NetworkSpec — one whose supplied
`public_subnet_cidrs` and `private_subnet_cidrs` match the
availability-zone list in length, or whose subnet CIDR lists are unset
(falsy) and hence derived — the number of public subnets created equals
the number of private subnets created equals the number of availability
zones. -/
theorem claim4_subnet_counts (spec : Vpc.NetworkSpec) (q : List String)
    (hpub : spec.public_subnet_cidrs = [] ∨
      spec.public_subnet_cidrs.length = (Vpc.resolvedAzs spec q).length)
    (hpriv : spec.private_subnet_cidrs = [] ∨
      spec.private_subnet_cidrs.length = (Vpc.resolvedAzs spec q).length) :
    (Vpc.buildNetwork spec q).publicSubnets.length = (Vpc.resolvedAzs spec q).length ∧
    (Vpc.buildNetwork spec q).privateSubnets.length = (Vpc.resolvedAzs spec q).length := by
  have h1 : (Vpc.resolvedPublicCidrs spec (Vpc.resolvedAzs spec q)).length =
      (Vpc.resolvedAzs spec q).length := by
    apply Vpc.length_resolvedPublicCidrs
    rcases hpub with h | h
    · exact Or.inl h
    · exact Or.inr h
  have h2 : (Vpc.resolvedPrivateCidrs spec (Vpc.resolvedAzs spec q)).length =
      (Vpc.resolvedAzs spec q).length := by
    apply Vpc.length_resolvedPrivateCidrs
    rcases hpriv with h | h
    · exact Or.inl h
    · exact Or.inr h
  constructor
  · rw [Vpc.publicSubnets_length, h1, Nat.min_self]
  · rw [Vpc.privateSubnets_length, h2, Nat.min_self]

/-- C4 witness: two zones with derived public CIDRs and supplied private
CIDRs of matching length yield two public and two private subnets. -/
theorem claim4_subnet_counts_witness :
    (Vpc.buildNetwork
      { availability_zones := ["us-east-1a", "us-east-1b"]
        private_subnet_cidrs := ["10.0.10.0/24", "10.0.11.0/24"] } []).publicSubnets.length =
      (Vpc.resolvedAzs
        { availability_zones := ["us-east-1a", "us-east-1b"]
          private_subnet_cidrs := ["10.0.10.0/24", "10.0.11.0/24"] } []).length ∧
    (Vpc.buildNetwork
      { availability_zones := ["us-east-1a", "us-east-1b"]
        private_subnet_cidrs := ["10.0.10.0/24", "10.0.11.0/24"] } []).privateSubnets.length =
      (Vpc.resolvedAzs
        { availability_zones := ["us-east-1a", "us-east-1b"]
          private_subnet_cidrs := ["10.0.10.0/24", "10.0.11.0/24"] } []).length :=
  claim4_subnet_counts
    { availability_zones := ["us-east-1a", "us-east-1b"]
      private_subnet_cidrs := ["10.0.10.0/24", "10.0.11.0/24"] } []
    (Or.inl rfl) (Or.inr (by decide))

/-- C10: for each subnet kind independently, when the caller supplies a
nonempty CIDR list of that kind whose length differs from the
availability-zone list, `VpcNetwork.__init__` does not raise — the
builder is total here, there is no length validation — and it silently
creates exactly `min(len(cidr list), len(availability_zones))` subnets
of that kind, the subnets being exactly the positional `zip` of zones
with the supplied CIDRs, the unmatched tail dropped. -/
theorem claim10_zip_truncation (spec : Vpc.NetworkSpec) (q : List String) :
    (spec.public_subnet_cidrs ≠ [] →
      spec.public_subnet_cidrs.length ≠ (Vpc.resolvedAzs spec q).length →
      (Vpc.buildNetwork spec q).publicSubnets.length =
        min spec.public_subnet_cidrs.length (Vpc.resolvedAzs spec q).length ∧
      (Vpc.buildNetwork spec q).publicSubnets =
        ((Vpc.resolvedAzs spec q).zip spec.public_subnet_cidrs).map
          (fun p => Vpc.Subnet.mk p.1 p.2 true)) ∧
    (spec.private_subnet_cidrs ≠ [] →
      spec.private_subnet_cidrs.length ≠ (Vpc.resolvedAzs spec q).length →
      (Vpc.buildNetwork spec q).privateSubnets.length =
        min spec.private_subnet_cidrs.length (Vpc.resolvedAzs spec q).length ∧
      (Vpc.buildNetwork spec q).privateSubnets =
        ((Vpc.resolvedAzs spec q).zip spec.private_subnet_cidrs).map
          (fun p => Vpc.Subnet.mk p.1 p.2 false)) := by
  constructor
  · intro hNe _
    have hres : Vpc.resolvedPublicCidrs spec (Vpc.resolvedAzs spec q) =
        spec.public_subnet_cidrs := by
      unfold Vpc.resolvedPublicCidrs
      simp [hNe]
    constructor
    · rw [Vpc.publicSubnets_length, hres, Nat.min_comm]
    · show ((Vpc.resolvedAzs spec q).zip
          (Vpc.resolvedPublicCidrs spec (Vpc.resolvedAzs spec q))).map
          (fun p => Vpc.Subnet.mk p.1 p.2 true) = _
      rw [hres]
  · intro hNe _
    have hres : Vpc.resolvedPrivateCidrs spec (Vpc.resolvedAzs spec q) =
        spec.private_subnet_cidrs := by
      unfold Vpc.resolvedPrivateCidrs
      simp [hNe]
    constructor
    · rw [Vpc.privateSubnets_length, hres, Nat.min_comm]
    · show ((Vpc.resolvedAzs spec q).zip
          (Vpc.resolvedPrivateCidrs spec (Vpc.resolvedAzs spec q))).map
          (fun p => Vpc.Subnet.mk p.1 p.2 false) = _
      rw [hres]

/-- A spec supplying only `public_subnet_cidrs`, three entries against
two zones (the private list is left unset and derived). -/
def pubOnlySpec : Vpc.NetworkSpec :=
  { availability_zones := ["us-east-1a", "us-east-1b"]
    public_subnet_cidrs := ["10.0.0.0/24", "10.0.1.0/24", "10.0.2.0/24"] }

/-- A spec supplying only `private_subnet_cidrs`, one entry against two
zones (the public list is left unset and derived). -/
def privOnlySpec : Vpc.NetworkSpec :=
  { availability_zones := ["us-east-1a", "us-east-1b"]
    private_subnet_cidrs := ["10.0.10.0/24"] }

/-- C10 witness: supplying only a three-element public list against two
zones yields exactly the two positionally paired public subnets; and
supplying only a one-element private list against two zones yields
exactly the one positionally paired private subnet. -/
theorem claim10_zip_truncation_witness :
    ((Vpc.buildNetwork pubOnlySpec []).publicSubnets.length = min 3 2 ∧
     (Vpc.buildNetwork pubOnlySpec []).publicSubnets =
       [Vpc.Subnet.mk "us-east-1a" "10.0.0.0/24" true,
        Vpc.Subnet.mk "us-east-1b" "10.0.1.0/24" true]) ∧
    ((Vpc.buildNetwork privOnlySpec []).privateSubnets.length = min 1 2 ∧
     (Vpc.buildNetwork privOnlySpec []).privateSubnets =
       [Vpc.Subnet.mk "us-east-1a" "10.0.10.0/24" false]) := by
  have hp := (claim10_zip_truncation pubOnlySpec []).1 (by decide) (by decide)
  have hv := (claim10_zip_truncation privOnlySpec []).2 (by decide) (by decide)
  exact ⟨⟨hp.1, hp.2.trans (by decide)⟩, ⟨hv.1, hv.2.trans (by decide)⟩⟩

/-- C3: with `public_subnet_cidrs` and `private_subnet_cidrs` unset,
`cidr_block = "10.0.0.0/16"` and exactly two availability zones (any
names), the derived public subnet CIDR list is
`["10.0.0.0/24", "10.0.1.0/24"]` and the derived private subnet CIDR
list is `["10.0.10.0/24", "10.0.11.0/24"]`, and the created subnets
carry exactly those CIDRs. -/
theorem claim3_derived_cidrs (az1 az2 : String) (q : List String) :
    Vpc.resolvedPublicCidrs
      { cidr_block := some "10.0.0.0/16", availability_zones := [az1, az2] }
      [az1, az2] = ["10.0.0.0/24", "10.0.1.0/24"] ∧
    Vpc.resolvedPrivateCidrs
      { cidr_block := some "10.0.0.0/16", availability_zones := [az1, az2] }
      [az1, az2] = ["10.0.10.0/24", "10.0.11.0/24"] ∧
    (Vpc.buildNetwork
      { cidr_block := some "10.0.0.0/16", availability_zones := [az1, az2] }
      q).publicSubnets.map Vpc.Subnet.cidr_block = ["10.0.0.0/24", "10.0.1.0/24"] ∧
    (Vpc.buildNetwork
      { cidr_block := some "10.0.0.0/16", availability_zones := [az1, az2] }
      q).privateSubnets.map Vpc.Subnet.cidr_block = ["10.0.10.0/24", "10.0.11.0/24"] := by
  have hp : Vpc.resolvedPublicCidrs
      { cidr_block := some "10.0.0.0/16", availability_zones := [az1, az2] }
      [az1, az2] = ["10.0.0.0/24", "10.0.1.0/24"] := by
    show Vpc.derivedPublicCidrs "10.0.0.0/16" 2 = _
    decide
  have hv : Vpc.resolvedPrivateCidrs
      { cidr_block := some "10.0.0.0/16", availability_zones := [az1, az2] }
      [az1, az2] = ["10.0.10.0/24", "10.0.11.0/24"] := by
    show Vpc.derivedPrivateCidrs "10.0.0.0/16" 2 = _
    decide
  have haz : Vpc.resolvedAzs
      { cidr_block := some "10.0.0.0/16", availability_zones := [az1, az2] } q
      = [az1, az2] := by
    simp [Vpc.resolvedAzs]
  refine ⟨hp, hv, ?_, ?_⟩ <;>
    simp [Vpc.buildNetwork, haz, hp, hv, List.zip]

/-- The rule `_build_rule` produces from the default egress record. -/
def builtDefaultEgress : SG.SecurityGroupIngressArgs :=
  { protocol := "-1", from_port := 0, to_port := 0,
    cidr_blocks := ["0.0.0.0/0"], ipv6_cidr_blocks := [],
    description := "Allow all outbound traffic", security_groups := none }

/-- C5: for every SecurityGroupSpec whose `egress_rules` list is empty
(or absent — indistinguishable in the source), the composed security
group contains exactly one egress rule: protocol `"-1"` (all protocols,
hence all ports — the provider ignores the port bounds 0/0 under
protocol `-1`), with CIDR source exactly `["0.0.0.0/0"]`. -/
theorem claim5_default_egress (spec : SG.SecurityGroupSpec)
    (hv : Py.truthyStr spec.vpc_id = true) (he : spec.egress_rules = []) :
    ∃ r, SG.buildSecurityGroup spec = .ok r ∧ r.egress = [builtDefaultEgress] := by
  refine ⟨SG.SecurityGroupResult.mk (spec.ingress_rules.map SG.build_rule)
    [builtDefaultEgress], ?_, rfl⟩
  simp [SG.buildSecurityGroup, hv, he, SG.build_rule, SG.defaultEgressRule,
    builtDefaultEgress]

/-- C5 witness: a spec with only a vpc id composes to the single
allow-all egress rule. -/
theorem claim5_default_egress_witness :
    ∃ r, SG.buildSecurityGroup { vpc_id := some "vpc-123" } = .ok r ∧
      r.egress = [builtDefaultEgress] :=
  claim5_default_egress { vpc_id := some "vpc-123" } (by decide) rfl

/-- C6: for every `DatabaseSecurityGroup` invocation that constructs (a
truthy vpc id and a source given), the single ingress rule's `from_port`
and `to_port` both equal the fixed lookup table's port for the given
database type; the table maps mysql/aurora-mysql to 3306,
postgres/postgresql/aurora-postgres to 5432, redis to 6379, mongodb to
27017, mssql to 1433, oracle to 1521; and any string missing from the
table falls back to 3306, the lookup itself never raising. -/
theorem claim6_database_ports (spec : SG.DatabaseSpec)
    (hv : Py.truthyStr spec.vpc_id = true)
    (hs : Py.truthyStr spec.source_security_group_id = true ∨
      spec.source_cidr_blocks ≠ []) :
    (∃ r, SG.buildDatabaseSecurityGroup spec = .ok r ∧
      r.ingress.length = 1 ∧
      ∀ rule ∈ r.ingress,
        rule.from_port = SG.databasePort (spec.database_type.getD "mysql") ∧
        rule.to_port = SG.databasePort (spec.database_type.getD "mysql")) ∧
    SG.databasePort "mysql" = 3306 ∧ SG.databasePort "aurora-mysql" = 3306 ∧
    SG.databasePort "postgres" = 5432 ∧ SG.databasePort "postgresql" = 5432 ∧
    SG.databasePort "aurora-postgres" = 5432 ∧ SG.databasePort "redis" = 6379 ∧
    SG.databasePort "mongodb" = 27017 ∧ SG.databasePort "mssql" = 1433 ∧
    SG.databasePort "oracle" = 1521 ∧
    ∀ s, SG.database_ports.lookup (Py.pyLower s) = none → SG.databasePort s = 3306 := by
  refine ⟨?_, by decide, by decide, by decide, by decide, by decide, by decide,
    by decide, by decide, by decide, ?_⟩
  · by_cases hsg : Py.truthyStr spec.source_security_group_id = true
    · refine ⟨SG.SecurityGroupResult.mk
        [SG.build_rule
          { protocol := some "tcp"
            from_port := some (SG.databasePort (spec.database_type.getD "mysql"))
            to_port := some (SG.databasePort (spec.database_type.getD "mysql"))
            source_security_group_id := spec.source_security_group_id
            description := some ("Allow " ++ spec.database_type.getD "mysql" ++ " access") }]
        [SG.build_rule SG.defaultEgressRule], ?_, rfl, ?_⟩
      · simp [SG.buildDatabaseSecurityGroup, SG.buildSecurityGroup, hsg, hv]
      · intro rule hrule
        rw [List.mem_singleton] at hrule
        subst hrule
        exact ⟨rfl, rfl⟩
    · have hc : spec.source_cidr_blocks ≠ [] := by
        rcases hs with h | h
        · exact absurd h hsg
        · exact h
      refine ⟨SG.SecurityGroupResult.mk
        [SG.build_rule
          { protocol := some "tcp"
            from_port := some (SG.databasePort (spec.database_type.getD "mysql"))
            to_port := some (SG.databasePort (spec.database_type.getD "mysql"))
            cidr_blocks := some spec.source_cidr_blocks
            description := some ("Allow " ++ spec.database_type.getD "mysql" ++ " access") }]
        [SG.build_rule SG.defaultEgressRule], ?_, rfl, ?_⟩
      · simp [SG.buildDatabaseSecurityGroup, SG.buildSecurityGroup, hsg, hc, hv]
      · intro rule hrule
        rw [List.mem_singleton] at hrule
        subst hrule
        exact ⟨rfl, rfl⟩
  · intro s hnone
    simp [SG.databasePort, hnone]

/-- C6 witness: a postgres database group sourced from a peer group has
its one ingress rule on port 5432, and the unknown name "sqlite" falls
back to 3306. -/
theorem claim6_database_ports_witness :
    (∃ r, SG.buildDatabaseSecurityGroup
        { vpc_id := some "vpc-123", database_type := some "postgres",
          source_security_group_id := some "sg-app" } = .ok r ∧
      r.ingress.length = 1 ∧
      ∀ rule ∈ r.ingress, rule.from_port = 5432 ∧ rule.to_port = 5432) ∧
    SG.databasePort "sqlite" = 3306 := by
  have h := claim6_database_ports
    { vpc_id := some "vpc-123", database_type := some "postgres",
      source_security_group_id := some "sg-app" } (by decide) (Or.inl (by decide))
  have hpg : SG.databasePort "postgres" = 5432 := h.2.2.2.1
  rcases h.1 with ⟨r, hok, hlen, hports⟩
  refine ⟨⟨r, hok, hlen, ?_⟩, h.2.2.2.2.2.2.2.2.2.2 "sqlite" (by decide)⟩
  intro rule hrule
  have := hports rule hrule
  simpa [hpg] using this

/-- A rule record specifying both a peer security group and literal
CIDR blocks, used to settle C2. -/
def ruleWithBothSources : SG.RuleRecord :=
  { protocol := some "tcp", from_port := some 443, to_port := some 443,
    cidr_blocks := some ["203.0.113.0/24"],
    source_security_group_id := some "sg-peer" }

/-- C2 counterexample: the claim says that when a rule record carries
both a `source_security_group_id` and a nonempty `cidr_blocks` list, the
literal CIDR set does not appear as an active source in the built rule.
In fact `_build_rule` copies `cidr_blocks` through unconditionally, so
the built rule carries the CIDR list (nonempty) alongside the peer
reference: nothing is dropped and no priority is applied. -/
theorem claim2_counterexample :
    (SG.build_rule ruleWithBothSources).security_groups = some ["sg-peer"] ∧
    (SG.build_rule ruleWithBothSources).cidr_blocks = ["203.0.113.0/24"] ∧
    ¬(SG.build_rule ruleWithBothSources).cidr_blocks = [] := by
  decide

/-- C2 amended: when a rule record specifies both a truthy
`source_security_group_id` and a `cidr_blocks` list, `_build_rule`
emits both sources side by side — `security_groups` is exactly the
one-element peer list and `cidr_blocks` is exactly the given list;
neither source takes priority over or suppresses the other. -/
theorem claim2_both_sources_kept (rule : SG.RuleRecord) (sgid : String) (l : List String)
    (hsg : rule.source_security_group_id = some sgid) (hne : sgid ≠ "")
    (hc : rule.cidr_blocks = some l) :
    (SG.build_rule rule).security_groups = some [sgid] ∧
    (SG.build_rule rule).cidr_blocks = l := by
  unfold SG.build_rule
  rw [hsg, hc]
  simp [hne]

/-- C2 witness: the amended statement at the concrete two-source rule. -/
theorem claim2_both_sources_kept_witness :
    (SG.build_rule ruleWithBothSources).security_groups = some ["sg-peer"] ∧
    (SG.build_rule ruleWithBothSources).cidr_blocks = ["203.0.113.0/24"] :=
  claim2_both_sources_kept ruleWithBothSources "sg-peer" ["203.0.113.0/24"]
    rfl (by decide) rfl

namespace Alb

/-- A listener configuration whose default action is a `forward` with no
truthy `target_group_arn` (the action dictionary is nonempty, and its
`type` defaults to or equals `"forward"`). -/
def badForwardConfig (lc : ListenerConfig) : Bool :=
  match lc.default_action with
  | some da =>
    !da.isEmptyDict && (da.type.getD "forward" == "forward") &&
      !(Py.truthyStr da.target_group_arn)
  | none => false

/-- A listener configuration with protocol `"HTTPS"` and no truthy
`certificate_arn`. -/
def badHttpsConfig (lc : ListenerConfig) : Bool :=
  (lc.protocol.getD "HTTP" == "HTTPS") && !(Py.truthyStr lc.certificate_arn)

lemma buildListener_error_of_bad (lc : ListenerConfig)
    (h : badForwardConfig lc = true ∨ badHttpsConfig lc = true) :
    ∃ e, buildListener lc = .error e := by
  simp only [buildListener]
  by_cases h1 : Py.truthyInt lc.port = false
  · rw [if_pos h1]
    exact ⟨_, rfl⟩
  · rw [if_neg h1]
    by_cases h2 : (lc.default_action.getD {}).isEmptyDict = true
    · rw [if_pos h2]
      exact ⟨_, rfl⟩
    · rw [if_neg h2]
      rcases h with hf | hh
      · have hba : buildAction (lc.default_action.getD {}) =
            .error "target_group_arn required for forward action" := by
          unfold badForwardConfig at hf
          rcases hda : lc.default_action with _ | da
          · rw [hda] at hf
            simp at hf
          · rw [hda] at hf
            simp only [Bool.and_eq_true, Bool.not_eq_eq_eq_not, Bool.not_true,
              beq_iff_eq] at hf
            simp only [buildAction, hda, Option.getD_some]
            rw [if_pos hf.1.2, if_neg (by simp [hf.2])]
        rw [hba]
        exact ⟨_, rfl⟩
      · unfold badHttpsConfig at hh
        simp only [Bool.and_eq_true, Bool.not_eq_eq_eq_not, Bool.not_true,
          beq_iff_eq] at hh
        rcases hba : buildAction (lc.default_action.getD {}) with e | action
        · exact ⟨e, rfl⟩
        · refine ⟨"certificate_arn required for HTTPS protocol", ?_⟩
          simp only [hba]
          rw [if_pos (show _ ∧ _ from ⟨hh.1, hh.2⟩)]

end Alb

/-- C7, corrected: in the loop of `ApplicationLoadBalancer.__init__`, a
listener configuration whose default action has type `forward` but no
`target_group_arn`, or whose protocol is `HTTPS` with no
`certificate_arn`, causes a fatal error raised before THAT listener is
created: at most the listeners strictly preceding it in the list are
created (in particular none after it).  The surrounding builder, given
valid subnets and security groups, surfaces exactly this loop outcome. -/
theorem claim7_listener_error_before_creation (pre : List Alb.ListenerConfig)
    (bad : Alb.ListenerConfig) (post : List Alb.ListenerConfig)
    (hbad : Alb.badForwardConfig bad = true ∨ Alb.badHttpsConfig bad = true) :
    ((Alb.buildListeners (pre ++ bad :: post)).2.isSome = true ∧
     (Alb.buildListeners (pre ++ bad :: post)).1.length ≤ pre.length) ∧
    ∀ spec : Alb.AlbSpec, spec.listeners = pre ++ bad :: post →
      2 ≤ spec.subnet_ids.length → spec.security_group_ids ≠ [] →
      Alb.buildApplicationLoadBalancer spec =
        .ok (Alb.buildListeners (pre ++ bad :: post)) := by
  constructor
  · induction pre with
    | nil =>
      rcases Alb.buildListener_error_of_bad bad hbad with ⟨e, he⟩
      simp [Alb.buildListeners, he]
    | cons lc pre ih =>
      rcases hbl : Alb.buildListener lc with e | l
      · simp [Alb.buildListeners, hbl]
      · simp only [List.cons_append, Alb.buildListeners, hbl, List.length_cons]
        exact ⟨ih.1, Nat.succ_le_succ ih.2⟩
  · intro spec hl h2 h3
    unfold Alb.buildApplicationLoadBalancer
    rw [if_neg (by omega), if_neg h3, if_neg (by simp [hl]), hl]

/-- A valid listener: port 80, HTTP, fixed-response default action. -/
def okFixedListener : Alb.ListenerConfig :=
  { port := some 80, default_action := some { type := some "fixed-response" } }

/-- An invalid listener: a `forward` default action with no
`target_group_arn`. -/
def badForwardListener : Alb.ListenerConfig :=
  { port := some 443, default_action := some { type := some "forward" } }

/-- C7 counterexample: the claim as stated says a bad `forward` listener
raises "before any listener resource is created", but with a valid
listener first in the list, that listener is already created when the
loop reaches the bad one and raises: one listener exists alongside the
error. -/
theorem claim7_counterexample :
    (Alb.buildListeners [okFixedListener, badForwardListener]).2.isSome = true ∧
    (Alb.buildListeners [okFixedListener, badForwardListener]).1.length = 1 := by
  decide

/-- C7 witness: the corrected statement at the concrete two-listener
list — the error is raised and at most the one preceding listener was
created. -/
theorem claim7_witness :
    ((Alb.buildListeners [okFixedListener, badForwardListener]).2.isSome = true ∧
     (Alb.buildListeners [okFixedListener, badForwardListener]).1.length ≤ 1) ∧
    ∀ spec : Alb.AlbSpec, spec.listeners = [okFixedListener, badForwardListener] →
      2 ≤ spec.subnet_ids.length → spec.security_group_ids ≠ [] →
      Alb.buildApplicationLoadBalancer spec =
        .ok (Alb.buildListeners [okFixedListener, badForwardListener]) :=
  claim7_listener_error_before_creation [okFixedListener] badForwardListener []
    (Or.inl (by decide))

/-- C9: `Ec2Instance.__init__` raises at construction time if and only
if neither `security_group_ids` nor `vpc_id` is truthy; and when
`vpc_id` is truthy with no `security_group_ids`, it creates the
fallback security group whose only ingress rule allows TCP port 22 from
`0.0.0.0/0`, and attaches the instance to exactly that group. -/
theorem claim9_ec2_fallback_sg (spec : Ec2.Ec2Spec) :
    ((∃ e, Ec2.buildEc2Instance spec = .error e) ↔
      (spec.security_group_ids = [] ∧ Py.truthyStr spec.vpc_id = false)) ∧
    (spec.security_group_ids = [] → Py.truthyStr spec.vpc_id = true →
      Ec2.buildEc2Instance spec = .ok
        { fallbackSecurityGroup := some Ec2.fallbackSecurityGroupData
          attached := .createdFallback Ec2.fallbackSecurityGroupData
          instance_user_data := spec.user_data } ∧
      Ec2.fallbackSecurityGroupData.ingress =
        [{ protocol := "tcp", from_port := 22, to_port := 22,
           cidr_blocks := ["0.0.0.0/0"], ipv6_cidr_blocks := [],
           description := "Allow SSH" }]) := by
  constructor
  · constructor
    · rintro ⟨e, he⟩
      by_contra hc
      rw [Ec2.buildEc2Instance, if_neg hc] at he
      by_cases h2 : spec.security_group_ids = [] <;> simp [h2] at he
    · rintro ⟨h1, h2⟩
      refine ⟨"Either security_group_ids or vpc_id must be provided", ?_⟩
      rw [Ec2.buildEc2Instance, if_pos ⟨h1, h2⟩]
  · intro h1 h2
    refine ⟨?_, rfl⟩
    rw [Ec2.buildEc2Instance, if_neg (by simp [h2]), if_pos h1]

/-- C9 witness: a spec with only a vpc id builds with the SSH-only
fallback group attached; a spec with neither raises. -/
theorem claim9_ec2_fallback_sg_witness :
    (Ec2.buildEc2Instance { vpc_id := some "vpc-1" } = .ok
      { fallbackSecurityGroup := some Ec2.fallbackSecurityGroupData
        attached := .createdFallback Ec2.fallbackSecurityGroupData
        instance_user_data := none } ∧
     Ec2.fallbackSecurityGroupData.ingress =
       [{ protocol := "tcp", from_port := 22, to_port := 22,
          cidr_blocks := ["0.0.0.0/0"], ipv6_cidr_blocks := [],
          description := "Allow SSH" }]) ∧
    ∃ e, Ec2.buildEc2Instance {} = .error e :=
  ⟨(claim9_ec2_fallback_sg { vpc_id := some "vpc-1" }).2 rfl (by decide),
   (claim9_ec2_fallback_sg {}).1.mpr ⟨rfl, rfl⟩⟩

/-- C8 counterexample: the claim says both boot-script-carrying builders
transmit the base64 encoding of a supplied `user_data`.  The
single-instance builder does not: it hands the script to
`aws.ec2.Instance` verbatim — for the script `"hello"` the transmitted
value is `"hello"`, not its base64 encoding `"aGVsbG8="`. -/
theorem claim8_counterexample :
    Ec2.buildEc2Instance { security_group_ids := ["sg-1"], user_data := some "hello" }
      = .ok { fallbackSecurityGroup := none, attached := .given ["sg-1"],
              instance_user_data := some "hello" } ∧
    Py.pyB64Encode "hello" = "aGVsbG8=" ∧
    some "hello" ≠ some (Py.pyB64Encode "hello") :=
  ⟨rfl, by decide, by decide⟩

/-- C8, corrected: of the two builders that transmit a boot script, the
launch-template builder transmits the base64 encoding of the supplied
`user_data`, while the single-instance builder transmits the supplied
script verbatim. -/
theorem claim8_user_data_encoding (lt : Asg.LaunchTemplateSpec) (e2 : Ec2.Ec2Spec)
    (ud : String) (hne : ud ≠ "") (hlt : lt.user_data = some ud)
    (hsg : lt.security_group_ids ≠ []) (he : e2.user_data = some ud)
    (hok : ¬(e2.security_group_ids = [] ∧ Py.truthyStr e2.vpc_id = false)) :
    Asg.buildLaunchTemplate lt = .ok { user_data := some (Py.pyB64Encode ud) } ∧
    (∃ r, Ec2.buildEc2Instance e2 = .ok r ∧ r.instance_user_data = some ud) := by
  constructor
  · rw [Asg.buildLaunchTemplate, if_neg hsg, hlt]
    simp [hne]
  · rw [Ec2.buildEc2Instance, if_neg hok]
    by_cases h2 : e2.security_group_ids = []
    · rw [if_pos h2]
      exact ⟨_, rfl, he⟩
    · rw [if_neg h2]
      exact ⟨_, rfl, he⟩

/-- C8 witness: the corrected statement at a concrete script. -/
theorem claim8_user_data_encoding_witness :
    Asg.buildLaunchTemplate
        { security_group_ids := ["sg-1"], user_data := some "hello" } =
      .ok { user_data := some (Py.pyB64Encode "hello") } ∧
    (∃ r, Ec2.buildEc2Instance
        { security_group_ids := ["sg-1"], user_data := some "hello" } = .ok r ∧
      r.instance_user_data = some "hello") :=
  claim8_user_data_encoding
    { security_group_ids := ["sg-1"], user_data := some "hello" }
    { security_group_ids := ["sg-1"], user_data := some "hello" }
    "hello" (by decide) rfl (by decide) rfl (by decide)
